import Mathlib

/-!  EV Parts Store backend: a shallow embedding of the checkout and seeding
paths of src/main.py, and a verification of the specification's claims about
them.  Money amounts are modelled as exact rationals; Python's banker's
rounding of `round(total, 2)` is modelled explicitly by `rndHalfEven`. -/

namespace EvStore

/-- A hexadecimal digit, as accepted (case-insensitively) by bson ObjectId
parsing of a 24-character string. -/
def isHexChar (c : Char) : Bool :=
  ('0' ≤ c && c ≤ '9') || ('a' ≤ c && c ≤ 'f') || ('A' ≤ c && c ≤ 'F')

/-- Lowercase every character of a string (the canonical string form of an
ObjectId, as produced by Python's str on an ObjectId, is lowercase hex). -/
def canonId (s : String) : String := String.mk (s.toList.map Char.toLower)

/-- Embedding of the ObjectId constructor applied to a cart line's product_id
(main.py line 133): a 24-character hex string parses, and its canonical form
is its lowercase version; anything else raises, which checkout turns into the
"Invalid product id" failure (main.py line 135). -/
def parseObjectId (s : String) : Option String :=
  if s.length == 24 && s.toList.all isHexChar then some (canonId s) else none

/-- A stored product document.  Mongo documents are schemaless, so every field
checkout or seeding touches is optional, mirroring the dict accesses
prod.get("price", 0) and prod.get("title", "") in main.py lines 146-150.
`oid` is the canonical (lowercase hex) string form of the document's _id. -/
structure Product where
  oid : String
  title : Option String := none
  description : Option String := none
  price : Option ℚ := none
  category : Option String := none
  in_stock : Option Bool := none
  image : Option String := none
  deriving DecidableEq

/-- Modelled from the spec: OrderItem lives in schemas.py, which is not under
src/; spec section 3 gives its fields (copied product reference, title
snapshot, quantity, price snapshot) with no further validation. -/
structure OrderItem where
  product_id : String
  title : String
  quantity : ℤ
  price : ℚ
  deriving DecidableEq

/-- Modelled from the spec: Order lives in schemas.py, which is not under
src/; spec section 3 gives its fields (ordered items, total, customer fields)
with no further validation — in particular nothing forbids an empty item
list. -/
structure Order where
  items : List OrderItem
  total : ℚ
  customer_name : String
  email : String
  address : String
  deriving DecidableEq

/-- CartItem (main.py lines 113-115). -/
structure CartItem where
  product_id : String
  quantity : ℤ
  deriving DecidableEq

/-- CheckoutRequest (main.py lines 117-121). -/
structure CheckoutRequest where
  items : List CartItem
  customer_name : String
  email : String
  address : String
  deriving DecidableEq

/-- Modelled from the spec: the backing store (database.py is not under
src/).  Spec section 6 describes a product store with batch fetch, count and
insert, and an order store whose insert returns a generated identifier.  Each
collection is kept as a list in insertion order; the identifier returned for
an inserted order is its index in that list. -/
structure DB where
  products : List Product
  orders : List Order
  deriving DecidableEq

/-- The two checkout failure modes of main.py: HTTP 400 "Invalid product id"
(line 135), and HTTP 400 "Product not found: ..." (line 144) whose message
carries the offending product reference. -/
inductive CheckoutError where
  | invalidProductId : CheckoutError
  | productNotFound : String → CheckoutError
  deriving DecidableEq

/-- The id-parsing loop of checkout (main.py lines 130-135): each cart line's
product_id is parsed in input order, and the first failure aborts the whole
request before the product query of line 136 is issued. -/
def parseIds : List CartItem → Option (List String)
  | [] => some []
  | ci :: rest =>
    match parseObjectId ci.product_id with
    | none => none
    | some oid =>
      match parseIds rest with
      | none => none
      | some l => some (oid :: l)

/-- The single batch query of main.py line 136: the stored documents whose
_id is among the parsed ids. -/
def findIn (store : List Product) (ids : List String) : List Product :=
  store.filter (fun p => ids.contains p.oid)

/-- product_map.get (main.py lines 136-137 and 142): the dict built from the
query results, keyed by the string form of _id.  A later document with the
same key would overwrite an earlier one, hence the reversed search. -/
def productMapGet (store : List Product) (ids : List String) (k : String) :
    Option Product :=
  (findIn store ids).reverse.find? (fun p => p.oid == k)

/-- The assembly loop of checkout (main.py lines 139-153): for each cart line
in input order, resolve the product (failing with that line's reference if it
is absent from the map), clamp the quantity to at least 1, default a missing
price to 0, add price times quantity to the running total, and append the
snapshot OrderItem. -/
def assembleLoop (pm : String → Option Product) :
    List CartItem → List OrderItem → ℚ →
    Except CheckoutError (List OrderItem × ℚ)
  | [], acc, total => Except.ok (acc, total)
  | ci :: rest, acc, total =>
    match pm ci.product_id with
    | none => Except.error (CheckoutError.productNotFound ci.product_id)
    | some prod =>
      assembleLoop pm rest
        (acc ++ [{ product_id := ci.product_id, title := prod.title.getD "",
                   quantity := max 1 ci.quantity, price := prod.price.getD 0 }])
        (total + prod.price.getD 0 * ((max 1 ci.quantity : ℤ) : ℚ))

/-- Round a rational to the nearest integer with ties going to the even
integer: the rounding performed by Python's built-in round. -/
def rndHalfEven (x : ℚ) : ℤ :=
  if x - ⌊x⌋ < 1/2 then ⌊x⌋
  else if 1/2 < x - ⌊x⌋ then ⌊x⌋ + 1
  else if ⌊x⌋ % 2 = 0 then ⌊x⌋ else ⌊x⌋ + 1

/-- round(total, 2) of main.py line 157: round to the nearest multiple of
1/100, ties to the even hundredth. -/
def pyRound2 (x : ℚ) : ℚ := (rndHalfEven (x * 100) : ℚ) / 100

/-- The checkout endpoint (main.py lines 123-164) on a configured database:
parse all cart ids, batch-fetch the referenced products, run the assembly
loop, round the total to 2 decimal places, persist the Order, and answer with
the generated order identifier and the total.  A raised validation failure
propagates before the order insert of line 163, so on the error branches the
state is returned unchanged. -/
def checkout (db : DB) (payload : CheckoutRequest) :
    DB × Except CheckoutError (Nat × ℚ) :=
  match parseIds payload.items with
  | none => (db, Except.error CheckoutError.invalidProductId)
  | some ids =>
    match assembleLoop (productMapGet db.products ids) payload.items [] 0 with
    | Except.error e => (db, Except.error e)
    | Except.ok (oitems, total) =>
      let order : Order :=
        { items := oitems, total := pyRound2 total,
          customer_name := payload.customer_name, email := payload.email,
          address := payload.address }
      ({ db with orders := db.orders ++ [order] },
       Except.ok (db.orders.length, order.total))

/-- The OrderItem the assembly loop constructs for one cart line (main.py
lines 148-153); the unresolved branch never occurs on a run that succeeds. -/
def assembledItem (pm : String → Option Product) (ci : CartItem) : OrderItem :=
  match pm ci.product_id with
  | some prod =>
    { product_id := ci.product_id, title := prod.title.getD "",
      quantity := max 1 ci.quantity, price := prod.price.getD 0 }
  | none =>
    { product_id := ci.product_id, title := "",
      quantity := max 1 ci.quantity, price := 0 }

/-- One cart line's contribution to the running total (main.py line 147):
the resolved product's price (0 when the price field is absent) times the
clamped quantity. -/
def lineAmount (pm : String → Option Product) (ci : CartItem) : ℚ :=
  match pm ci.product_id with
  | some prod => prod.price.getD 0 * ((max 1 ci.quantity : ℤ) : ℚ)
  | none => 0

/-- The accumulated total over the cart lines in input order. -/
def lineTotal (pm : String → Option Product) (items : List CartItem) : ℚ :=
  (items.map (lineAmount pm)).sum

/-- The Order a successful checkout constructs (main.py lines 155-161). -/
def mkOrder (pm : String → Option Product) (payload : CheckoutRequest) : Order :=
  { items := payload.items.map (assembledItem pm),
    total := pyRound2 (lineTotal pm payload.items),
    customer_name := payload.customer_name, email := payload.email,
    address := payload.address }

/-- The seed endpoint's response: either "Products already exist" or the
seeded flag with the inserted count (main.py lines 75 and 104). -/
inductive SeedResponse where
  | already : SeedResponse
  | seeded : Nat → SeedResponse
  deriving DecidableEq

/-- The three sample documents of seed_products (main.py lines 76-101); `gen`
supplies the store-generated _id of the i-th insert. -/
def sampleProducts (gen : Nat → String) : List Product :=
  [{ oid := gen 0, title := some "Level 2 Home Charger",
     description := some "Fast 32A wall-mounted EVSE with WiFi smart scheduling.",
     price := some 499, category := some "charging", in_stock := some true,
     image := some "https://images.unsplash.com/photo-1593941707882-a5bba14938c1?q=80&w=1200&auto=format&fit=crop" },
   { oid := gen 1, title := some "Type 2 Charging Cable 7m",
     description := some "Durable T2 to T2 cable, 32A, weatherproof.",
     price := some 129, category := some "cables", in_stock := some true,
     image := some "https://images.unsplash.com/photo-1607860108855-0a3d85e9e599?q=80&w=1200&auto=format&fit=crop" },
   { oid := gen 2, title := some "Portable Tire Inflator",
     description := some "Digital compressor with auto-stop and LED light.",
     price := some 59, category := some "accessories", in_stock := some true,
     image := some "https://images.unsplash.com/photo-1627228616588-46e0cd85f618?q=80&w=1200&auto=format&fit=crop" }]

/-- The seed endpoint (main.py lines 69-104) on a configured database: if the
product collection is non-empty nothing is inserted, otherwise the three
sample documents are inserted one by one and their count is reported. -/
def seed_products (gen : Nat → String) (db : DB) : DB × SeedResponse :=
  if db.products.length > 0 then (db, SeedResponse.already)
  else ({ db with products := db.products ++ sampleProducts gen },
        SeedResponse.seeded (sampleProducts gen).length)

/-- Round-half-up to 2 decimal places, stated from the claim's words
("standard rounding (round-half-up)"), for comparison with the code's
pyRound2. -/
def specRoundHalfUp2 (x : ℚ) : ℚ := ((⌊x * 100 + 1/2⌋ : ℤ) : ℚ) / 100

/-- Modelled from the spec: an external admin mutation of a stored Product's
price (spec section 3 says products are created via seeding or external admin
action; the repository itself has no product-update endpoint, so the mutation
that the snapshot invariant quantifies over is modelled here). -/
def setPrice (oid : String) (newPrice : ℚ) (p : Product) : Product :=
  if p.oid == oid then { p with price := some newPrice } else p

/-- The store after the price mutation: only the product collection is
touched. -/
def updatePrice (db : DB) (oid : String) (newPrice : ℚ) : DB :=
  { db with products := db.products.map (setPrice oid newPrice) }

/-- Modelled from the spec: the analogous external mutation of a stored
Product's title. -/
def setTitle (oid : String) (newTitle : String) (p : Product) : Product :=
  if p.oid == oid then { p with title := some newTitle } else p

/-- The store after the title mutation: only the product collection is
touched. -/
def updateTitle (db : DB) (oid : String) (newTitle : String) : DB :=
  { db with products := db.products.map (setTitle oid newTitle) }

/-- A valid product id present in the concrete example store. -/
def idA : String := "aaaaaaaaaaaaaaaaaaaaaaaa"

/-- A second valid product id present in the concrete example store. -/
def idB : String := "bbbbbbbbbbbbbbbbbbbbbbbb"

/-- A well-formed product id that matches no stored product. -/
def idC : String := "cccccccccccccccccccccccc"

/-- The id of the example product priced 1/8 (0.125). -/
def idD : String := "dddddddddddddddddddddddd"

/-- The id of the example product whose document has no price field. -/
def idE : String := "eeeeeeeeeeeeeeeeeeeeeeee"

/-- A concrete store: a 129.00 cable, a 59.00 product, a product priced
0.125, and a product without a price field. -/
def exDB : DB :=
  { products :=
      [{ oid := idA, title := some "Type 2 Charging Cable 7m", price := some 129 },
       { oid := idB, price := some 59 },
       { oid := idD, title := some "Eighth", price := some (1/8) },
       { oid := idE, title := some "Unpriced" }],
    orders := [] }

/-- A two-line cart resolving to prices 129 and 59 with quantities 1 and 3. -/
def exPayC1 : CheckoutRequest :=
  { items := [{ product_id := idA, quantity := 1 },
              { product_id := idB, quantity := 3 }],
    customer_name := "Ada", email := "ada@example.com", address := "1 Test Way" }

/-- A cart whose second line references a product absent from the store. -/
def exPayC2 : CheckoutRequest :=
  { items := [{ product_id := idA, quantity := 1 },
              { product_id := idC, quantity := 2 }],
    customer_name := "Ada", email := "ada@example.com", address := "1 Test Way" }

/-- A cart whose second line's reference does not parse as an ObjectId. -/
def exPayC3 : CheckoutRequest :=
  { items := [{ product_id := idA, quantity := 1 },
              { product_id := "not-an-objectid", quantity := 1 }],
    customer_name := "Ada", email := "ada@example.com", address := "1 Test Way" }

/-- A one-line cart with quantity 0 for the 129.00 product. -/
def exPayC4 : CheckoutRequest :=
  { items := [{ product_id := idA, quantity := 0 }],
    customer_name := "Ada", email := "ada@example.com", address := "1 Test Way" }

/-- A one-line cart for the product priced 0.125, quantity 1. -/
def exPayC5 : CheckoutRequest :=
  { items := [{ product_id := idD, quantity := 1 }],
    customer_name := "Ada", email := "ada@example.com", address := "1 Test Way" }

/-- A one-line cart for the product whose document has no price field. -/
def exPayC7 : CheckoutRequest :=
  { items := [{ product_id := idE, quantity := 2 }],
    customer_name := "Ada", email := "ada@example.com", address := "1 Test Way" }

/-- A cart listing the same product reference on two separate lines. -/
def exPayC9 : CheckoutRequest :=
  { items := [{ product_id := idA, quantity := 2 },
              { product_id := idA, quantity := 3 }],
    customer_name := "Ada", email := "ada@example.com", address := "1 Test Way" }

/-- If any cart line's reference fails to parse, the whole parse phase
fails. -/
theorem parseIds_eq_none {items : List CartItem} {ci : CartItem}
    (hmem : ci ∈ items) (hbad : parseObjectId ci.product_id = none) :
    parseIds items = none := by
  induction items with
  | nil => cases hmem
  | cons hd tl ih =>
    rcases List.mem_cons.mp hmem with h | h
    · subst h
      simp [parseIds, hbad]
    · cases hhd : parseObjectId hd.product_id with
      | none => simp [parseIds, hhd]
      | some oid => simp [parseIds, hhd, ih h]

/-- When every cart line resolves, the assembly loop succeeds, appending one
assembled item per line and adding the per-line amounts to the accumulator. -/
theorem assembleLoop_ok_of_resolved (pm : String → Option Product) :
    ∀ (items : List CartItem) (acc : List OrderItem) (total : ℚ),
    (∀ ci ∈ items, (pm ci.product_id).isSome) →
    assembleLoop pm items acc total =
      Except.ok (acc ++ items.map (assembledItem pm), total + lineTotal pm items) := by
  intro items
  induction items with
  | nil => intro acc total _; simp [assembleLoop, lineTotal]
  | cons hd tl ih =>
    intro acc total hres
    obtain ⟨prod, hp⟩ :=
      Option.isSome_iff_exists.mp (hres hd (List.mem_cons_self hd tl))
    have htl : ∀ ci ∈ tl, (pm ci.product_id).isSome :=
      fun ci hci => hres ci (List.mem_cons_of_mem hd hci)
    simp only [assembleLoop, hp]
    rw [ih _ _ htl]
    simp [assembledItem, lineAmount, lineTotal, hp]
    ring

/-- A successful assembly run means every cart line resolved. -/
theorem assembleLoop_resolved_of_ok (pm : String → Option Product) :
    ∀ (items : List CartItem) (acc : List OrderItem) (total : ℚ) r,
    assembleLoop pm items acc total = Except.ok r →
    ∀ ci ∈ items, (pm ci.product_id).isSome := by
  intro items
  induction items with
  | nil => intro _ _ _ _ ci hci; cases hci
  | cons hd tl ih =>
    intro acc total r hok ci hci
    cases hp : pm hd.product_id with
    | none => rw [assembleLoop, hp] at hok; cases hok
    | some prod =>
      rw [assembleLoop, hp] at hok
      rcases List.mem_cons.mp hci with h | h
      · subst h; simp [hp]
      · exact ih _ _ _ hok ci h

/-- The assembly loop fails on the first unresolved cart line, naming that
line's reference. -/
theorem assembleLoop_error_first_missing (pm : String → Option Product) :
    ∀ (items : List CartItem) (acc : List OrderItem) (total : ℚ) (ci : CartItem),
    items.find? (fun x => (pm x.product_id).isNone) = some ci →
    assembleLoop pm items acc total =
      Except.error (CheckoutError.productNotFound ci.product_id) := by
  intro items
  induction items with
  | nil => intro _ _ _ h; cases h
  | cons hd tl ih =>
    intro acc total ci hfind
    cases hp : pm hd.product_id with
    | none =>
      have : hd = ci := by
        have h2 := List.find?_cons_of_pos (p := fun x => (pm x.product_id).isNone)
          (a := hd) tl (by simp [hp])
        rw [h2] at hfind
        exact Option.some.inj hfind
      subst this
      rw [assembleLoop, hp]
    | some prod =>
      have hfind2 : tl.find? (fun x => (pm x.product_id).isNone) = some ci := by
        have h2 := List.find?_cons_of_neg (p := fun x => (pm x.product_id).isNone)
          (a := hd) tl (by simp [hp])
        rw [h2] at hfind
        exact hfind
      rw [assembleLoop, hp]
      exact ih _ _ _ hfind2

/-- A successful checkout appends exactly the assembled Order and answers with
the new order's identifier and rounded total. -/
theorem checkout_ok (db : DB) (payload : CheckoutRequest) (ids : List String)
    (hids : parseIds payload.items = some ids)
    (hres : ∀ ci ∈ payload.items,
      (productMapGet db.products ids ci.product_id).isSome) :
    checkout db payload =
      ({ db with orders :=
          db.orders ++ [mkOrder (productMapGet db.products ids) payload] },
       Except.ok (db.orders.length,
         (mkOrder (productMapGet db.products ids) payload).total)) := by
  unfold checkout
  simp only [hids]
  rw [assembleLoop_ok_of_resolved _ _ _ _ hres]
  simp [mkOrder]

/-- Each line's contribution equals its assembled item's price times its
assembled quantity. -/
theorem assembledItem_amount (pm : String → Option Product) (ci : CartItem) :
    (assembledItem pm ci).price * ((assembledItem pm ci).quantity : ℚ) =
      lineAmount pm ci := by
  cases hp : pm ci.product_id with
  | none => simp [assembledItem, lineAmount, hp]
  | some prod => simp [assembledItem, lineAmount, hp]

/-- C1: for every valid cart (every cart line's product reference resolves to
a product), the Order returned by checkout has total equal to the sum over
cart lines, in input order, of the resolved product's price times the clamped
quantity (max of 1 and the requested quantity), rounded to 2 decimal
places. -/
theorem claim_C1 (db : DB) (payload : CheckoutRequest) (ids : List String)
    (hids : parseIds payload.items = some ids)
    (hres : ∀ ci ∈ payload.items,
      (productMapGet db.products ids ci.product_id).isSome) :
    (checkout db payload).2 =
      Except.ok (db.orders.length,
        pyRound2 (lineTotal (productMapGet db.products ids) payload.items)) := by
  rw [checkout_ok db payload ids hids hres]
  rfl

/-- C1 witness: the two-line cart with prices 129 and 59 and quantities 1 and
3 totals 306. -/
theorem claim_C1_witness :
    (checkout exDB exPayC1).2 = Except.ok (0, 306) := by
  have h := claim_C1 exDB exPayC1 [idA, idB] (by decide) (by decide)
  rw [h]
  have hlt : lineTotal (productMapGet exDB.products [idA, idB]) exPayC1.items
      = 306 := by
    simp +decide [lineTotal, lineAmount, productMapGet, findIn, exDB, exPayC1,
      idA, idB, idD, idE, List.find?]
    norm_num
  rw [hlt]
  have hr : pyRound2 306 = 306 := by norm_num [pyRound2, rndHalfEven]
  rw [hr]
  rfl

/-- C2: for every cart containing a line whose product reference is absent
from the resolved product set, checkout fails with a ValidationError whose
message names the missing reference, and no Order is constructed or persisted
(the state is returned unchanged, the order-store insert never reached). -/
theorem claim_C2 (db : DB) (payload : CheckoutRequest) (ids : List String)
    (ci : CartItem)
    (hids : parseIds payload.items = some ids)
    (hfm : payload.items.find?
      (fun x => (productMapGet db.products ids x.product_id).isNone) = some ci) :
    checkout db payload =
      (db, Except.error (CheckoutError.productNotFound ci.product_id)) ∧
    productMapGet db.products ids ci.product_id = none ∧
    ci ∈ payload.items := by
  refine ⟨?_, ?_, List.mem_of_find?_eq_some hfm⟩
  · unfold checkout
    simp only [hids]
    rw [assembleLoop_error_first_missing _ _ _ _ _ hfm]
  · have h2 := List.find?_some hfm
    simpa using h2

/-- C2 witness: the cart referencing the absent product idC fails with the
error naming idC and leaves the store unchanged. -/
theorem claim_C2_witness :
    checkout exDB exPayC2 =
      (exDB, Except.error (CheckoutError.productNotFound idC)) := by
  have h := claim_C2 exDB exPayC2 [idA, idC] { product_id := idC, quantity := 2 }
    (by decide) (by decide)
  exact h.1

/-- C3: for every cart containing at least one product reference that fails
to parse into the store's identifier format, checkout fails with the
"Invalid product id" ValidationError, before any product lookup is issued
(the conclusion holds for every store content) and with no partial result and
no Order persisted (the state is returned unchanged). -/
theorem claim_C3 (db : DB) (payload : CheckoutRequest) (ci : CartItem)
    (hmem : ci ∈ payload.items) (hbad : parseObjectId ci.product_id = none) :
    checkout db payload = (db, Except.error CheckoutError.invalidProductId) := by
  unfold checkout
  rw [parseIds_eq_none hmem hbad]

/-- C3 witness: the cart whose second line's reference is not a 24-character
hex string fails with "Invalid product id" and leaves the store unchanged. -/
theorem claim_C3_witness :
    checkout exDB exPayC3 = (exDB, Except.error CheckoutError.invalidProductId) :=
  claim_C3 exDB exPayC3 { product_id := "not-an-objectid", quantity := 1 }
    (by decide) (by decide)

/-- C4: for every cart line with quantity at most 0, checkout uses quantity 1
for that line: the constructed OrderItem's quantity is 1 and the line
contributes price times 1 to the total; and every OrderItem in any produced
Order has quantity at least 1. -/
theorem claim_C4 (db : DB) (payload : CheckoutRequest) (ids : List String)
    (hids : parseIds payload.items = some ids)
    (hres : ∀ ci ∈ payload.items,
      (productMapGet db.products ids ci.product_id).isSome) :
    (∀ oi ∈ (mkOrder (productMapGet db.products ids) payload).items,
      1 ≤ oi.quantity) ∧
    (∀ ci ∈ payload.items, ci.quantity ≤ 0 →
      (assembledItem (productMapGet db.products ids) ci).quantity = 1 ∧
      lineAmount (productMapGet db.products ids) ci =
        (assembledItem (productMapGet db.products ids) ci).price * 1) ∧
    checkout db payload =
      ({ db with orders :=
          db.orders ++ [mkOrder (productMapGet db.products ids) payload] },
       Except.ok (db.orders.length,
         (mkOrder (productMapGet db.products ids) payload).total)) := by
  refine ⟨?_, ?_, checkout_ok db payload ids hids hres⟩
  · intro oi hoi
    rw [mkOrder] at hoi
    obtain ⟨ci, _, hci⟩ := List.mem_map.mp hoi
    subst hci
    cases hp : productMapGet db.products ids ci.product_id with
    | none => simp [assembledItem, hp, le_max_left]
    | some prod => simp [assembledItem, hp, le_max_left]
  · intro ci _ hq
    have hmax : max (1 : ℤ) ci.quantity = 1 := max_eq_left (by linarith)
    cases hp : productMapGet db.products ids ci.product_id with
    | none => simp [assembledItem, lineAmount, hp, hmax]
    | some prod => simp [assembledItem, lineAmount, hp, hmax]

/-- C4 witness: the one-line cart with quantity 0 for the 129.00 product gets
an assembled quantity of 1 and a total of 129. -/
theorem claim_C4_witness :
    (assembledItem (productMapGet exDB.products [idA])
      { product_id := idA, quantity := 0 }).quantity = 1 ∧
    (checkout exDB exPayC4).2 = Except.ok (0, 129) := by
  have h := claim_C4 exDB exPayC4 [idA] (by decide) (by decide)
  constructor
  · exact (h.2.1 { product_id := idA, quantity := 0 } (by decide) (by decide)).1
  · rw [h.2.2]
    have hlt : lineTotal (productMapGet exDB.products [idA]) exPayC4.items
        = 129 := by
      simp +decide [lineTotal, lineAmount, productMapGet, findIn, exDB,
        exPayC4, idA, idB, idD, idE, List.find?]
    have hr : pyRound2 129 = 129 := by norm_num [pyRound2, rndHalfEven]
    simp only [mkOrder, hlt, hr]
    rfl

/-- C5 counterexample: on the one-line cart for the product priced 0.125
(quantity 1) the accumulated total is 1/8 and the code's rounded total is
0.12, while round-half-up of 1/8 is 0.13 — so the claim that the code rounds
half-up is false at this input. -/
theorem claim_C5_counterexample :
    (checkout exDB exPayC5).2 = Except.ok (0, 12/100) ∧
    lineTotal (productMapGet exDB.products [idD]) exPayC5.items = 1/8 ∧
    specRoundHalfUp2 (1/8) = 13/100 ∧
    ((12 : ℚ)/100) ≠ 13/100 := by
  have hlt : lineTotal (productMapGet exDB.products [idD]) exPayC5.items
      = 1/8 := by
    simp +decide [lineTotal, lineAmount, productMapGet, findIn, exDB, exPayC5,
      idA, idB, idD, idE, List.find?]
  refine ⟨?_, hlt, ?_, by norm_num⟩
  · rw [checkout_ok exDB exPayC5 [idD] (by decide) (by decide)]
    have hr : pyRound2 (1/8) = 12/100 := by norm_num [pyRound2, rndHalfEven]
    simp only [mkOrder, hlt, hr]
    rfl
  · norm_num [specRoundHalfUp2]

/-- C5 (amended): after processing all cart lines, the accumulated total is
rounded to 2 decimal places to the nearest hundredth with ties going to the
even hundredth (round-half-even, the semantics of Python's built-in round) —
not truncation and not round-half-up: the rounded value n/100 satisfies
|100 t - n| ≤ 1/2, with an even n whenever the distance is exactly 1/2, and
every successful checkout's total is exactly this rounding of its accumulated
total. -/
theorem claim_C5 :
    (∀ x : ℚ, pyRound2 x = ((rndHalfEven (x * 100) : ℤ) : ℚ) / 100 ∧
      |x * 100 - ((rndHalfEven (x * 100) : ℤ) : ℚ)| ≤ 1/2 ∧
      (|x * 100 - ((rndHalfEven (x * 100) : ℤ) : ℚ)| = 1/2 →
        rndHalfEven (x * 100) % 2 = 0)) ∧
    (∀ (db : DB) (payload : CheckoutRequest) (ids : List String),
      parseIds payload.items = some ids →
      (∀ ci ∈ payload.items,
        (productMapGet db.products ids ci.product_id).isSome) →
      (checkout db payload).2 =
        Except.ok (db.orders.length,
          pyRound2 (lineTotal (productMapGet db.products ids) payload.items))) := by
  constructor
  · intro x
    refine ⟨rfl, ?_⟩
    set y := x * 100 with hy
    have h0 : ((⌊y⌋ : ℤ) : ℚ) ≤ y := Int.floor_le y
    have h1 : y < ((⌊y⌋ : ℤ) : ℚ) + 1 := Int.lt_floor_add_one y
    have hrnd : rndHalfEven y =
        if y - ⌊y⌋ < 1/2 then ⌊y⌋
        else if 1/2 < y - ⌊y⌋ then ⌊y⌋ + 1
        else if ⌊y⌋ % 2 = 0 then ⌊y⌋ else ⌊y⌋ + 1 := rfl
    rcases lt_trichotomy (y - ⌊y⌋) (1/2) with hA | hA | hA
    · have hr : rndHalfEven y = ⌊y⌋ := by rw [hrnd, if_pos hA]
      rw [hr]
      constructor
      · rw [abs_le]
        constructor <;> linarith
      · intro habs
        rw [abs_of_nonneg (by linarith)] at habs
        linarith
    · have hnlt : ¬(y - ⌊y⌋ < 1/2) := by linarith
      have hngt : ¬((1 : ℚ)/2 < y - ⌊y⌋) := by linarith
      by_cases hpar : ⌊y⌋ % 2 = 0
      · have hr : rndHalfEven y = ⌊y⌋ := by
          rw [hrnd, if_neg hnlt, if_neg hngt, if_pos hpar]
        rw [hr]
        refine ⟨?_, fun _ => hpar⟩
        rw [abs_of_nonneg (by linarith)]
        linarith
      · have hr : rndHalfEven y = ⌊y⌋ + 1 := by
          rw [hrnd, if_neg hnlt, if_neg hngt, if_neg hpar]
        rw [hr]
        constructor
        · push_cast
          rw [abs_of_nonpos (by linarith)]
          linarith
        · intro _
          omega
    · have hnlt : ¬(y - ⌊y⌋ < 1/2) := by linarith
      have hr : rndHalfEven y = ⌊y⌋ + 1 := by rw [hrnd, if_neg hnlt, if_pos hA]
      rw [hr]
      constructor
      · push_cast
        rw [abs_le]
        constructor <;> linarith
      · intro habs
        push_cast at habs
        rw [abs_of_nonpos (by linarith)] at habs
        linarith
  · intro db payload ids hids hres
    rw [checkout_ok db payload ids hids hres]
    rfl

/-- C5 witness: the rounding bound at the accumulated total 1/8, and the
checkout connection at the concrete 0.125-priced cart. -/
theorem claim_C5_witness :
    |(1/8 : ℚ) * 100 - ((rndHalfEven ((1/8 : ℚ) * 100) : ℤ) : ℚ)| ≤ 1/2 ∧
    (checkout exDB exPayC5).2 =
      Except.ok (0,
        pyRound2 (lineTotal (productMapGet exDB.products [idD]) exPayC5.items)) := by
  refine ⟨(claim_C5.1 (1/8)).2.1, ?_⟩
  exact claim_C5.2 exDB exPayC5 [idD] (by decide) (by decide)

/-- C6: for the empty cart, checkout succeeds: it produces an Order with
total 0 and zero line items, persists it, and returns its generated order
identifier — the empty cart is accepted, not rejected. -/
theorem claim_C6 (db : DB) (nm em ad : String) :
    checkout db (CheckoutRequest.mk [] nm em ad) =
      ({ db with orders := db.orders ++ [Order.mk [] 0 nm em ad] },
       Except.ok (db.orders.length, 0)) := by
  have h0 : pyRound2 0 = 0 := by norm_num [pyRound2, rndHalfEven]
  simp [checkout, parseIds, assembleLoop, h0]

/-- C7: for every cart line whose resolved product record has no price field,
checkout treats the price as 0 — the line's assembled OrderItem has price 0
and the line contributes 0 to the total — rather than failing: the checkout
still succeeds with the rounded sum of the per-line amounts. -/
theorem claim_C7 (db : DB) (payload : CheckoutRequest) (ids : List String)
    (hids : parseIds payload.items = some ids)
    (hres : ∀ ci ∈ payload.items,
      (productMapGet db.products ids ci.product_id).isSome)
    (ci : CartItem) (hmem : ci ∈ payload.items) (prod : Product)
    (hp : productMapGet db.products ids ci.product_id = some prod)
    (hprice : prod.price = none) :
    (assembledItem (productMapGet db.products ids) ci).price = 0 ∧
    lineAmount (productMapGet db.products ids) ci = 0 ∧
    (checkout db payload).2 =
      Except.ok (db.orders.length,
        pyRound2 (lineTotal (productMapGet db.products ids) payload.items)) := by
  refine ⟨?_, ?_, ?_⟩
  · simp [assembledItem, hp, hprice]
  · simp [lineAmount, hp, hprice]
  · rw [checkout_ok db payload ids hids hres]
    rfl

/-- C7 witness: the cart for the product without a price field succeeds with
item price 0 and total 0. -/
theorem claim_C7_witness :
    (assembledItem (productMapGet exDB.products [idE])
      { product_id := idE, quantity := 2 }).price = 0 ∧
    (checkout exDB exPayC7).2 = Except.ok (0, 0) := by
  have h := claim_C7 exDB exPayC7 [idE] (by decide) (by decide)
    { product_id := idE, quantity := 2 } (by decide)
    { oid := idE, title := some "Unpriced" } (by decide) rfl
  refine ⟨h.1, ?_⟩
  rw [h.2.2]
  have hlt : lineTotal (productMapGet exDB.products [idE]) exPayC7.items
      = 0 := by
    simp +decide [lineTotal, lineAmount, productMapGet, findIn, exDB, exPayC7,
      idA, idB, idD, idE, List.find?]
  have hr : pyRound2 0 = 0 := by norm_num [pyRound2, rndHalfEven]
  rw [hlt, hr]
  rfl

/-- C8: snapshot invariant — every OrderItem constructed by checkout holds
copies of the product's title and price taken at assembly time; after
assembly, mutating the underlying Product record's price (or title) does not
change any persisted Order (and hence no already-constructed OrderItem). -/
theorem claim_C8 (db : DB) (payload : CheckoutRequest) (db2 : DB)
    (res : Except CheckoutError (Nat × ℚ))
    (h : checkout db payload = (db2, res))
    (oid : String) (q : ℚ) (t : String) :
    (updatePrice db2 oid q).orders = db2.orders ∧
    (updateTitle db2 oid t).orders = db2.orders :=
  ⟨rfl, rfl⟩

/-- C8 witness: after the concrete checkout, repricing the purchased product
leaves the persisted orders untouched. -/
theorem claim_C8_witness :
    (updatePrice (checkout exDB exPayC1).1 idA 999).orders =
      (checkout exDB exPayC1).1.orders :=
  (claim_C8 exDB exPayC1 (checkout exDB exPayC1).1 (checkout exDB exPayC1).2
    rfl idA 999 "Renamed").1

/-- C9: duplicate cart lines are allowed and priced independently — checkout
produces one OrderItem per cart line (the Order has as many items as the cart
has lines, even when two lines carry the same reference) and the total is the
rounded sum of every line's own price times clamped quantity. -/
theorem claim_C9 (db : DB) (payload : CheckoutRequest) (ids : List String)
    (hids : parseIds payload.items = some ids)
    (hres : ∀ ci ∈ payload.items,
      (productMapGet db.products ids ci.product_id).isSome) :
    (mkOrder (productMapGet db.products ids) payload).items.length =
      payload.items.length ∧
    (mkOrder (productMapGet db.products ids) payload).total =
      pyRound2 ((payload.items.map
        (lineAmount (productMapGet db.products ids))).sum) ∧
    checkout db payload =
      ({ db with orders :=
          db.orders ++ [mkOrder (productMapGet db.products ids) payload] },
       Except.ok (db.orders.length,
         (mkOrder (productMapGet db.products ids) payload).total)) := by
  exact ⟨by simp [mkOrder], rfl, checkout_ok db payload ids hids hres⟩

/-- C9 witness: the cart listing product idA on two lines (quantities 2 and
3) yields two order items and total 129*5 = 645. -/
theorem claim_C9_witness :
    (mkOrder (productMapGet exDB.products [idA, idA]) exPayC9).items.length = 2 ∧
    (checkout exDB exPayC9).2 = Except.ok (0, 645) := by
  have h := claim_C9 exDB exPayC9 [idA, idA] (by decide) (by decide)
  refine ⟨by rw [h.1]; rfl, ?_⟩
  rw [h.2.2]
  have hlt : lineTotal (productMapGet exDB.products [idA, idA]) exPayC9.items
      = 645 := by
    simp +decide [lineTotal, lineAmount, productMapGet, findIn, exDB, exPayC9,
      idA, idB, idD, idE, List.find?]
    norm_num
  have hr : pyRound2 645 = 645 := by norm_num [pyRound2, rndHalfEven]
  simp only [mkOrder, hlt, hr]
  rfl

/-- C10: seeding is guarded by emptiness — on a non-empty product collection
seed_products inserts nothing, reports not seeded and leaves the store
unchanged; on an empty collection it inserts exactly the 3 sample products
and reports seeded with count 3. -/
theorem claim_C10 (gen : Nat → String) (db : DB) :
    (db.products ≠ [] → seed_products gen db = (db, SeedResponse.already)) ∧
    (db.products = [] → seed_products gen db =
      ({ db with products := sampleProducts gen }, SeedResponse.seeded 3)) ∧
    (sampleProducts gen).length = 3 := by
  refine ⟨?_, ?_, by simp [sampleProducts]⟩
  · intro h
    have hl : 0 < db.products.length := List.length_pos.mpr h
    simp [seed_products, hl]
  · intro h
    simp [seed_products, h, sampleProducts]

/-- C10 witness: seeding the empty store inserts the three samples; seeding
the already-populated concrete store changes nothing. -/
theorem claim_C10_witness :
    seed_products (fun _ => idC) (DB.mk [] []) =
      ({ products := sampleProducts (fun _ => idC), orders := [] },
       SeedResponse.seeded 3) ∧
    seed_products (fun _ => idC) exDB = (exDB, SeedResponse.already) := by
  constructor
  · exact (claim_C10 (fun _ => idC) (DB.mk [] [])).2.1 rfl
  · exact (claim_C10 (fun _ => idC) exDB).1 (by decide)

end EvStore
